import Mathlib

/-!
Verification development for the tap-postgres extractor.

The definitions below are a shallow embedding of the Python source in
`tap_postgres/client.py`, `tap_postgres/connection_parameters.py` and
`tap_postgres/postgres_type_adapter.py`.  Pure functions become Lean
functions; the CDC read loop becomes a step function over a finite trace of
environment events; fallible code returns `Except` or `Option`.
-/

namespace TapPostgres

/-- Severity of a log call made by the source (`logger.debug` / `logger.warning`). -/
inductive LogLevel
  | debug
  | warning
  deriving DecidableEq, Repr

/-- One log entry: the severity and the (static part of the) message template. -/
structure LogEntry where
  level : LogLevel
  msg : String
  deriving DecidableEq, Repr

/-- A JSON-compatible primitive value as it appears in rows handled by the tap:
`None`, strings, integers and booleans. -/
inductive Field
  | null
  | str (s : String)
  | int (n : Int)
  | bool (b : Bool)
  deriving DecidableEq, Repr

/-- A Python `dict` with string keys, modelled as an association list in
insertion order. -/
abbrev Row : Type := List (String × Field)

/-- `d[k] = v` on a Python dict: replace the value in place if the key is
present (keeping its position), otherwise append the new pair. -/
def dictInsert {α : Type} (d : List (String × α)) (k : String) (v : α) :
    List (String × α) :=
  if d.any (fun p => p.1 = k) then
    d.map (fun p => if p.1 = k then (k, v) else p)
  else
    d ++ [(k, v)]

/-- `d.get(k)` on a Python dict. -/
def dictLookup {α : Type} (d : List (String × α)) (k : String) : Option α :=
  (d.find? (fun p => p.1 = k)).map (fun p => p.2)

/-- A UTC wall-clock instant as produced by `datetime.datetime.utcnow()`. -/
structure DateTimeUTC where
  year : Nat
  month : Nat
  day : Nat
  hour : Nat
  minute : Nat
  second : Nat
  deriving DecidableEq, Repr

/-- Zero-pad a natural number to two decimal digits, as `strftime` renders
the month, day, hour, minute and second fields (all below 100). -/
def pad2 (n : Nat) : String :=
  String.mk [Nat.digitChar (n / 10 % 10), Nat.digitChar (n % 10)]

/-- Zero-pad a natural number to four decimal digits, as `strftime` renders
`%Y` for the four-digit years `utcnow` produces. -/
def pad4 (n : Nat) : String :=
  String.mk [Nat.digitChar (n / 1000 % 10), Nat.digitChar (n / 100 % 10),
    Nat.digitChar (n / 10 % 10), Nat.digitChar (n % 10)]

/-- `datetime.datetime.utcnow().strftime(r"%Y-%m-%dT%H:%M:%SZ")` from
`PostgresLogBasedStream.consume`. -/
def strftimeUtc (t : DateTimeUTC) : String :=
  pad4 t.year ++ "-" ++ pad2 t.month ++ "-" ++ pad2 t.day ++ "T" ++
    pad2 t.hour ++ ":" ++ pad2 t.minute ++ ":" ++ pad2 t.second ++ "Z"

/-- The fields of a wall-clock instant are in calendar range (what `utcnow`
always returns; days per month are not needed for the formatting facts). -/
def DateTimeUTC.valid (t : DateTimeUTC) : Prop :=
  1000 ≤ t.year ∧ t.year ≤ 9999 ∧ 1 ≤ t.month ∧ t.month ≤ 12 ∧
    1 ≤ t.day ∧ t.day ≤ 31 ∧ t.hour ≤ 23 ∧ t.minute ≤ 59 ∧ t.second ≤ 59

instance (t : DateTimeUTC) : Decidable t.valid := by
  unfold DateTimeUTC.valid
  infer_instance

/-- Check that a character is an ASCII digit. -/
def isDigitChar (c : Char) : Bool :=
  '0' ≤ c ∧ c ≤ '9'

/-- Shape check for a basic UTC ISO-8601 timestamp
`YYYY-MM-DDTHH:MM:SSZ`: twenty characters, digits in the numeric
positions and the fixed separators in theirs. -/
def isBasicIso8601Utc (s : String) : Bool :=
  match s.toList with
  | [y1, y2, y3, y4, a, m1, m2, b, d1, d2, t, h1, h2, c, i1, i2, d, s1, s2, z] =>
      isDigitChar y1 && isDigitChar y2 && isDigitChar y3 && isDigitChar y4 &&
        a = '-' && isDigitChar m1 && isDigitChar m2 && b = '-' &&
        isDigitChar d1 && isDigitChar d2 && t = 'T' &&
        isDigitChar h1 && isDigitChar h2 && c = ':' &&
        isDigitChar i1 && isDigitChar i2 && d = ':' &&
        isDigitChar s1 && isDigitChar s2 && z = 'Z'
  | _ => false

/-- A column entry of a wal2json format-version-2 change event: one element of
the `columns` or `identity` array, carrying a name and a value. -/
structure WalColumn where
  name : String
  value : Field
  deriving DecidableEq, Repr

/-- The result of `json.loads(message.payload)` in
`PostgresLogBasedStream.consume`: either the payload is not valid JSON
(`json.loads` raises `JSONDecodeError`), or it decodes to a change-event
object with an `action` discriminator and the `columns` / `identity` arrays.
The JSON parse itself is performed by the Python standard library, so its
outcome is an input of the embedding. -/
inductive WalPayload
  | malformed (raw : String)
  | event (action : String) (columns : List WalColumn) (identity : List WalColumn)
  deriving DecidableEq, Repr

/-- A decoded WAL message as handed to `consume`: the payload and the
`data_start` LSN position psycopg2 attaches to the message. -/
structure WalMessage where
  payload : WalPayload
  data_start : Nat
  deriving DecidableEq, Repr

/-- `row.update({column["name"]: column["value"]})` folded over a wal2json
column array, starting from the empty dict. -/
def rowFromColumns (cols : List WalColumn) : Row :=
  cols.foldl (fun r c => dictInsert r c.name c.value) ([] : Row)

/-- Message template of the warning logged for a payload that is not valid
JSON. -/
def malformedLogMsg : String :=
  "A message payload of %s could not be converted to JSON"

/-- Message template of the debug log for a truncate action. -/
def truncateLogMsg : String :=
  "A message payload of %s (corresponding to a truncate action) could not be processed."

/-- Message template of the debug log for a transaction begin/commit action. -/
def transactionLogMsg : String :=
  "A message payload of %s (corresponding to a transaction beginning or commit) could not be processed."

/-- Message of the `RuntimeError` raised for an unknown action type. -/
def unknownActionMsg : String :=
  "A message payload of %s (corresponding to an unknown action type) could not be processed."

instance {ε α : Type} [DecidableEq ε] [DecidableEq α] : DecidableEq (Except ε α) :=
  fun x y =>
    match x, y with
    | .error a, .error b =>
        if h : a = b then .isTrue (congrArg Except.error h)
        else .isFalse (fun he => h (Except.error.inj he))
    | .ok a, .ok b =>
        if h : a = b then .isTrue (congrArg Except.ok h)
        else .isFalse (fun he => h (Except.ok.inj he))
    | .error _, .ok _ => .isFalse (fun he => Except.noConfusion he)
    | .ok _, .error _ => .isFalse (fun he => Except.noConfusion he)

/-- `PostgresLogBasedStream.consume` (client.py lines 433-492).

Takes the decoded message and the current UTC instant (`utcnow`); returns the
produced row together with the log entries emitted, or the message of the
`RuntimeError` raised for an unrecognized action.  A malformed payload and
the truncate / transaction actions return the empty dict `{}`. -/
def consume (m : WalMessage) (now : DateTimeUTC) :
    Except String (Row × List LogEntry) :=
  match m.payload with
  | .malformed _ =>
      .ok (([] : Row), [⟨.warning, malformedLogMsg⟩])
  | .event action columns identity =>
      if action = "I" ∨ action = "U" then
        let row := rowFromColumns columns
        let row := dictInsert row "_sdc_deleted_at" Field.null
        let row := dictInsert row "_sdc_lsn" (Field.int m.data_start)
        .ok (row, [])
      else if action = "D" then
        let row := rowFromColumns identity
        let row := dictInsert row "_sdc_deleted_at" (Field.str (strftimeUtc now))
        let row := dictInsert row "_sdc_lsn" (Field.int m.data_start)
        .ok (row, [])
      else if action = "T" then
        .ok (([] : Row), [⟨.debug, truncateLogMsg⟩])
      else if action = "B" ∨ action = "C" then
        .ok (([] : Row), [⟨.debug, transactionLogMsg⟩])
      else
        .error unknownActionMsg

/-- The record `PostgresLogBasedStream.get_records` yields for one message:
`row = self.consume(message)` followed by the truthiness guard `if row:`
(an empty dict is falsy, so it yields nothing). -/
def recordOf (m : WalMessage) (now : DateTimeUTC) : Except String (Option Row) :=
  match consume m now with
  | .error e => .error e
  | .ok (row, _) => .ok (if row = ([] : Row) then none else some row)

/-- Outcome of one `select.select([cursor], [], [], timeout)` call in the idle
branch of `PostgresLogBasedStream.get_records`: the cursor became readable,
the wait elapsed with nothing available, or the wait was interrupted by a
signal (`InterruptedError`). -/
inductive SelectOutcome
  | ready
  | empty
  | interrupted
  deriving DecidableEq, Repr

/-- One iteration of the streaming loop as seen from the environment: either
`read_message()` returned a message, or it returned `None` and the loop
entered the idle branch, where `elapsed` is
`(datetime.datetime.now() - cursor.feedback_timestamp).total_seconds()`
and `outcome` is what the subsequent `select` call returned. -/
inductive LoopEvent
  | msg (m : WalMessage)
  | idle (elapsed : ℚ) (outcome : SelectOutcome)
  deriving DecidableEq, Repr

/-- Observable outcome of running the streaming loop of
`PostgresLogBasedStream.get_records` over a finite trace of events:
the rows yielded, the log entries emitted, and the timeout argument of each
`select` call performed, in order. -/
structure LoopTrace where
  rows : List Row
  logs : List LogEntry
  waits : List ℚ
  deriving DecidableEq, Repr

/-- Final status of the loop on a finite trace: it broke out of the loop (the
select wait elapsed empty), the trace was exhausted while the loop was still
running, or a `RuntimeError` from `consume` propagated. -/
inductive LoopStatus
  | finished
  | stillRunning
  | raised (e : String)
  deriving DecidableEq, Repr

/-- Prepend rows / logs / waits produced by one iteration to the outcome of
the remaining iterations. -/
def prependTrace (rows : List Row) (logs : List LogEntry) (waits : List ℚ)
    (r : LoopTrace × LoopStatus) : LoopTrace × LoopStatus :=
  (⟨rows ++ r.1.rows, logs ++ r.1.logs, waits ++ r.1.waits⟩, r.2)

/-- `status_interval = 5.0` in `PostgresLogBasedStream.get_records`: "if no
records in 5 seconds the tap can exit". -/
def statusInterval : ℚ := 5

/-- The `while True:` streaming loop of `PostgresLogBasedStream.get_records`
(client.py lines 403-428), run over a finite trace of environment events.

On a message: `consume`, yield the row when it is truthy, propagate a
`RuntimeError`.  On no message: compute
`timeout = status_interval - (now - feedback_timestamp).total_seconds()`,
wait on the connection for `max(0, timeout)` seconds; when the wait elapses
with nothing available, break out of the loop; when the cursor is readable or
the wait is interrupted by a signal, continue with the next iteration. -/
def runLoop (now : DateTimeUTC) : List LoopEvent → LoopTrace × LoopStatus
  | [] => (⟨[], [], []⟩, .stillRunning)
  | .msg m :: rest =>
      match consume m now with
      | .error e => (⟨[], [], []⟩, .raised e)
      | .ok (row, lg) =>
          prependTrace (if row = ([] : Row) then [] else [row]) lg []
            (runLoop now rest)
  | .idle elapsed outcome :: rest =>
      let timeout := statusInterval - elapsed
      let wait := max 0 timeout
      match outcome with
      | .empty => (⟨[], [], [wait]⟩, .finished)
      | .ready => prependTrace [] [] [wait] (runLoop now rest)
      | .interrupted => prependTrace [] [] [wait] (runLoop now rest)

/-- State of the replication cursor and connection opened by
`PostgresLogBasedStream.get_records`. -/
structure Resources where
  cursorOpen : Bool
  connectionOpen : Bool
  deriving DecidableEq, Repr

/-- The streaming part of `PostgresLogBasedStream.get_records` including the
clean-up after the loop: when the loop breaks (the idle wait elapsed with
nothing available) the code runs `logical_replication_cursor.close()` and
`logical_replication_connection.close()`; when the trace is exhausted the
loop is still blocked with both resources open; when `consume` raises, the
exception propagates past the close calls, leaving both open. -/
def getRecordsRun (now : DateTimeUTC) (events : List LoopEvent) :
    LoopTrace × LoopStatus × Resources :=
  match runLoop now events with
  | (t, .finished) => (t, .finished, ⟨false, false⟩)
  | (t, .stillRunning) => (t, .stillRunning, ⟨true, true⟩)
  | (t, .raised e) => (t, .raised e, ⟨true, true⟩)

/-- Python truthiness of the value returned by
`get_starting_replication_key_value` (`None`, `0`, `""` and `False` are
falsy), as tested by `if start_val:` in `PostgresStream.get_records`. -/
def pyTruthy : Option Field → Bool
  | none => false
  | some Field.null => false
  | some (Field.int n) => n ≠ 0
  | some (Field.str s) => s ≠ ""
  | some (Field.bool b) => b

/-- Value of the replication-key column in a row; a column missing from the
mapping reads as SQL NULL. -/
def keyOf (r : Row) (k : String) : Field :=
  (dictLookup r k).getD Field.null

/-- The SQL predicate `replication_key_col >= start_val` under three-valued
logic: a NULL operand never satisfies the filter.  Within one column all
values share a single runtime type, so the cross-type cases (a type error in
SQL) are never satisfied either. -/
def sqlGeB : Field → Field → Bool
  | Field.null, _ => false
  | _, Field.null => false
  | Field.int a, Field.int b => a ≥ b
  | Field.str a, Field.str b => b ≤ a
  | Field.bool a, Field.bool b => !b || a
  | _, _ => false

/-- Rank used to totalize the row order across value constructors: NULL sorts
below every value (`sa.nullsfirst`), and within one column all values share a
single runtime type, so the relative order of distinct non-null constructors
never matters for the modelled query. -/
def fieldRank : Field → Nat
  | Field.null => 0
  | Field.bool _ => 1
  | Field.int _ => 2
  | Field.str _ => 3

/-- Total order on column values implementing
`ORDER BY replication_key NULLS FIRST, replication_key ASC`: NULL first, then
ascending values. -/
def fieldLeB : Field → Field → Bool
  | Field.null, _ => true
  | _, Field.null => false
  | Field.bool x, Field.bool y => !x || y
  | Field.bool _, _ => true
  | _, Field.bool _ => false
  | Field.int x, Field.int y => x ≤ y
  | Field.int _, _ => true
  | _, Field.int _ => false
  | Field.str x, Field.str y => x ≤ y

/-- Row order induced by the replication-key column under
`sa.nullsfirst(replication_key_col)`. -/
def rowLe (k : String) (a b : Row) : Prop :=
  fieldLeB (keyOf a k) (keyOf b k) = true

instance (k : String) : DecidableRel (rowLe k) := by
  intro a b
  unfold rowLe
  infer_instance

theorem fieldLeB_total (a b : Field) : fieldLeB a b = true ∨ fieldLeB b a = true := by
  rcases a with _ | x | x | x <;> rcases b with _ | y | y | y <;>
    simp [fieldLeB] <;> first
      | exact le_total _ _
      | (cases x <;> cases y <;> simp)

theorem fieldLeB_trans (a b c : Field) (hab : fieldLeB a b = true)
    (hbc : fieldLeB b c = true) : fieldLeB a c = true := by
  rcases a with _ | x | x | x <;> rcases b with _ | y | y | y <;>
      rcases c with _ | z | z | z <;>
      simp_all [fieldLeB] <;> first
        | exact le_trans hab hbc
        | (revert hab hbc; cases x <;> cases y <;> cases z <;> simp)

instance (k : String) : IsTotal Row (rowLe k) :=
  ⟨fun a b => fieldLeB_total (keyOf a k) (keyOf b k)⟩

instance (k : String) : IsTrans Row (rowLe k) :=
  ⟨fun a b c => fieldLeB_trans (keyOf a k) (keyOf b k) (keyOf c k)⟩

/-- `PostgresStream.get_records` (client.py lines 265-307) applied to the
rows of the selected table.

With no replication key the query is a plain `table.select()` (table order).
With a replication key the query is ordered by
`sa.nullsfirst(replication_key_col)` and, when
`start_val = self.get_starting_replication_key_value(context)` is truthy
(`if start_val:`), filtered by `replication_key_col >= start_val`.  The
database evaluates the WHERE clause before ORDER BY, modelled here as filter
followed by a sort under the row order. -/
def postgresStreamGetRecords (rows : List Row) (replicationKey : Option String)
    (startVal : Option Field) : List Row :=
  match replicationKey with
  | none => rows
  | some k =>
      let filtered :=
        if pyTruthy startVal then
          rows.filter (fun r => sqlGeB (keyOf r k) (startVal.getD Field.null))
        else rows
      List.insertionSort (rowLe k) filtered

/-- The `type_dict` of a singer-sdk typing object: its JSON Schema type list
and optional `format` annotation. -/
structure TypeDict where
  types : List String
  format : Option String
  deriving DecidableEq, Repr

/-- `th.CustomType({"type": ["string", "number", "integer", "array", "object",
"boolean"]})`, the schema used for `json` and `jsonb` columns. -/
def jsonTypeDict : TypeDict :=
  ⟨["string", "number", "integer", "array", "object", "boolean"], none⟩

/-- `th.DateTimeType().type_dict`. -/
def dateTimeTypeDict : TypeDict := ⟨["string"], some "date-time"⟩

/-- `th.DateType().type_dict`. -/
def dateTypeDict : TypeDict := ⟨["string"], some "date"⟩

/-- `th.IntegerType().type_dict`. -/
def integerTypeDict : TypeDict := ⟨["integer"], none⟩

/-- `th.NumberType().type_dict`. -/
def numberTypeDict : TypeDict := ⟨["number"], none⟩

/-- `th.StringType().type_dict`. -/
def stringTypeDict : TypeDict := ⟨["string"], none⟩

/-- `th.BooleanType().type_dict`. -/
def booleanTypeDict : TypeDict := ⟨["boolean"], none⟩

/-- The ordered `sqltype_lookup` mapping of
`PostgresConnector.sdk_typing_object` (client.py lines 191-223), with the
`dates_as_string` substitutions applied in place (a Python dict update keeps
the entry's position). -/
def sqltypeLookup (datesAsString : Bool) : List (String × TypeDict) :=
  [("jsonb", jsonTypeDict),
   ("json", jsonTypeDict),
   ("timestamp", dateTimeTypeDict),
   ("datetime", if datesAsString then stringTypeDict else dateTimeTypeDict),
   ("date", if datesAsString then stringTypeDict else dateTypeDict),
   ("int", integerTypeDict),
   ("numeric", numberTypeDict),
   ("decimal", numberTypeDict),
   ("double", numberTypeDict),
   ("float", numberTypeDict),
   ("string", stringTypeDict),
   ("text", stringTypeDict),
   ("char", stringTypeDict),
   ("bool", booleanTypeDict),
   ("variant", stringTypeDict)]

/-- `s.lower()` on an ASCII SQL type name. -/
def lowerStr (s : String) : String := String.mk (s.toList.map Char.toLower)

/-- Whether the first list is an initial segment of the second. -/
def leadMatch : List Char → List Char → Bool
  | [], _ => true
  | _ :: _, [] => false
  | a :: as, b :: bs => a = b && leadMatch as bs

/-- Whether the first list occurs contiguously inside the second. -/
def containsSeq : List Char → List Char → Bool
  | needle, [] => needle.isEmpty
  | needle, c :: rest => leadMatch needle (c :: rest) || containsSeq needle rest

/-- Python's `needle in hay` substring test. -/
def containsSub (hay needle : String) : Bool :=
  containsSeq needle.toList hay.toList

/-- `PostgresConnector.sdk_typing_object` (client.py lines 160-240) applied
to a SQL type name: scan the ordered lookup for the first key that is a
substring of the lowercased name, falling back to
`sqltype_lookup["string"]`. -/
def sdk_typing_object (datesAsString : Bool) (typeName : String) : TypeDict :=
  match (sqltypeLookup datesAsString).find?
      (fun e => containsSub (lowerStr typeName) (lowerStr e.1)) with
  | some e => e.2
  | none => stringTypeDict

/-- `PostgresConnector.to_jsonschema_type` (client.py lines 120-158) applied
to a SQL type given by name: a string is never a `postgresql.ARRAY`
instance, so the method returns `self.sdk_typing_object(sql_type).type_dict`. -/
def to_jsonschema_type_str (datesAsString : Bool) (typeName : String) : TypeDict :=
  sdk_typing_object datesAsString typeName

/-- A declared property schema as passed to `patched_conform`: the plain
`{"type": [...]}` dictionaries this tap produces. -/
structure PropertySchema where
  typeList : List String
  deriving DecidableEq, Repr

/-- The singer-sdk helper `is_boolean_type` (an external collaborator),
modelled from the repository's own description of it in the
`patched_conform` docstring: it returns true exactly when the schema
contains a boolean anywhere in its type list, so a schema like
`{"type": ["boolean", "integer"]}` counts as boolean. -/
def is_boolean_type (schema : PropertySchema) : Bool :=
  schema.typeList.contains "boolean"

/-- A proleptic-Gregorian calendar date (`datetime.date`). -/
structure PyDate where
  year : Nat
  month : Nat
  day : Nat
  deriving DecidableEq, Repr

/-- A Python primitive value as seen by `patched_conform`.  `datetime.date`
and `datetime.datetime` are distinguished constructors, but note that in
Python a datetime instance also satisfies `isinstance(elem, datetime.date)`.
`datetime.timedelta` values are outside the modelled value universe (no
claim concerns them). -/
inductive PyVal
  | date (d : PyDate)
  | datetime (t : DateTimeUTC)
  | time (h mi s : Nat)
  | bytes (bs : List Nat)
  | str (s : String)
  | int (n : Int)
  | bool (b : Bool)
  | none
  deriving DecidableEq, Repr

/-- `datetime.date.isoformat()`. -/
def dateIso (d : PyDate) : String :=
  pad4 d.year ++ "-" ++ pad2 d.month ++ "-" ++ pad2 d.day

/-- `datetime.datetime.isoformat()` for a naive datetime with zero
microseconds. -/
def datetimeIso (t : DateTimeUTC) : String :=
  pad4 t.year ++ "-" ++ pad2 t.month ++ "-" ++ pad2 t.day ++ "T" ++
    pad2 t.hour ++ ":" ++ pad2 t.minute ++ ":" ++ pad2 t.second

/-- `str(elem)` on a `datetime.time` with zero microseconds. -/
def timeStr (h mi s : Nat) : String :=
  pad2 h ++ ":" ++ pad2 mi ++ ":" ++ pad2 s

/-- One lowercase hexadecimal digit. -/
def hexDigit (n : Nat) : Char :=
  if n < 10 then Char.ofNat ('0'.toNat + n) else Char.ofNat ('a'.toNat + n - 10)

/-- `bytes.hex()`: two lowercase hex digits per byte. -/
def bytesHex (bs : List Nat) : String :=
  String.mk (bs.foldr (fun b acc => hexDigit (b / 16 % 16) :: hexDigit (b % 16) :: acc) [])

/-- `patched_conform` (client.py lines 34-81), the override installed over
`singer_sdk.helpers._typing._conform_primitive_property`.

The first branch `isinstance(elem, datetime.date)` also captures datetime
values (datetime subclasses date), returning `elem.isoformat()`.  A bytes
value is interpreted as a boolean (`elem != b"\x00"`) when
`is_boolean_type(property_schema)` holds and rendered as `elem.hex()`
otherwise.  Everything else is returned unchanged. -/
def patched_conform (elem : PyVal) (schema : PropertySchema) : PyVal :=
  match elem with
  | .date d => .str (dateIso d)
  | .datetime t => .str (datetimeIso t)
  | .time h mi s => .str (timeStr h mi s)
  | .bytes bs =>
      if is_boolean_type schema then .bool (bs ≠ [0]) else .str (bytesHex bs)
  | e => e

/-- Read a nonempty all-digit character list as a natural number. -/
def digitsToNat : List Char → Option Nat
  | [] => none
  | cs =>
      if cs.all isDigitChar then
        some (cs.foldl (fun a c => a * 10 + (c.toNat - '0'.toNat)) 0)
      else none

/-- Gregorian leap-year rule used by `datetime.date`. -/
def isLeapYear (y : Nat) : Bool :=
  (y % 4 = 0 && y % 100 ≠ 0) || y % 400 = 0

/-- Days in a month of the proleptic Gregorian calendar. -/
def daysInMonth (y m : Nat) : Nat :=
  if m = 2 then (if isLeapYear y then 29 else 28)
  else if m = 4 ∨ m = 6 ∨ m = 9 ∨ m = 11 then 30
  else 31

/-- `str.split` on a single separator character. -/
def splitOnChar (sep : Char) : List Char → List (List Char)
  | [] => [[]]
  | c :: rest =>
      let r := splitOnChar sep rest
      if c = sep then [] :: r
      else
        match r with
        | [] => [[c]]
        | h :: t => (c :: h) :: t

/-- `datetime.datetime.strptime(str_value, "%Y-%m-%d").date()` as a total
parser over the characters: `%Y` is exactly four digits, `%m` and `%d` are
one or two digits, the whole string must be consumed, and the resulting
fields must form a valid `datetime.date` (year at least 1, day within the
month); any failure is the `ValueError` the source catches. -/
def parseDateChars (cs : List Char) : Option PyDate :=
  match splitOnChar '-' cs with
  | [ys, ms, ds] =>
      match digitsToNat ys, digitsToNat ms, digitsToNat ds with
      | some y, some m, some d =>
          if ys.length = 4 ∧ ms.length ≤ 2 ∧ ds.length ≤ 2 ∧
              1 ≤ y ∧ 1 ≤ m ∧ m ≤ 12 ∧ 1 ≤ d ∧ d ≤ daysInMonth y m then
            some ⟨y, m, d⟩
          else none
      | _, _, _ => none
  | _ => none

/-- `datetime.datetime.strptime(str_value, "%Y-%m-%d").date()` on a string. -/
def parseDateStr (s : String) : Option PyDate :=
  parseDateChars s.toList

/-- A Python `datetime.datetime` as produced by `fromisoformat`. -/
structure PyDateTime where
  date : PyDate
  hour : Nat
  minute : Nat
  second : Nat
  microsecond : Nat
  utcOffsetMinutes : Option Int
  deriving DecidableEq, Repr

/-- Parse `HH:MM:SS` from exactly eight characters. -/
def parseClock (cs : List Char) : Option (Nat × Nat × Nat) :=
  match cs with
  | [h1, h2, ':', m1, m2, ':', s1, s2] =>
      match digitsToNat [h1, h2], digitsToNat [m1, m2], digitsToNat [s1, s2] with
      | some h, some mi, some s =>
          if h ≤ 23 ∧ mi ≤ 59 ∧ s ≤ 59 then some (h, mi, s) else none
      | _, _, _ => none
  | _ => none

/-- Parse the optional fractional-seconds part `.d{1..6}` returning the
microsecond value, and the remaining characters. -/
def parseFraction (cs : List Char) : Option (Nat × List Char) :=
  match cs with
  | '.' :: rest =>
      let digits := rest.takeWhile isDigitChar
      let tail := rest.dropWhile isDigitChar
      if 1 ≤ digits.length ∧ digits.length ≤ 6 then
        match digitsToNat digits with
        | some f => some (f * 10 ^ (6 - digits.length), tail)
        | none => none
      else none
  | other => some (0, other)

/-- Parse the optional UTC offset `Z`, `+HH:MM` or `-HH:MM` (the forms the
Postgres text protocol emits); the empty remainder means a naive datetime. -/
def parseOffset (cs : List Char) : Option (Option Int) :=
  match cs with
  | [] => some none
  | ['Z'] => some (some 0)
  | [sign, h1, h2, ':', m1, m2] =>
      match digitsToNat [h1, h2], digitsToNat [m1, m2] with
      | some h, some mi =>
          if (sign = '+' ∨ sign = '-') ∧ h ≤ 23 ∧ mi ≤ 59 then
            some (some (if sign = '+' then (h * 60 + mi : Int) else -(h * 60 + mi : Int)))
          else none
      | _, _ => none
  | _ => none

/-- `datetime.datetime.fromisoformat(str_value)` restricted to the formats
the Postgres text protocol emits: an ISO date, optionally followed by a `T`
or space separator, a `HH:MM:SS` clock, optional fractional seconds and an
optional UTC offset.  The date part requires two-digit month and day, as
`fromisoformat` does. -/
def parseDatetimeStr (s : String) : Option PyDateTime :=
  let cs := s.toList
  let dateChars := cs.take 10
  let rest := cs.drop 10
  match dateChars with
  | [_, _, _, _, '-', m1, _, '-', d1, _] =>
      match parseDateChars dateChars with
      | some d =>
          if isDigitChar m1 && isDigitChar d1 then
            match rest with
            | [] => some ⟨d, 0, 0, 0, 0, none⟩
            | sep :: timeChars =>
                if sep = 'T' ∨ sep = ' ' then
                  match parseClock (timeChars.take 8) with
                  | some (h, mi, sec) =>
                      match parseFraction (timeChars.drop 8) with
                      | some (micro, tail) =>
                          match parseOffset tail with
                          | some off => some ⟨d, h, mi, sec, micro, off⟩
                          | none => none
                      | none => none
                  | none => none
                else none
          else none
      | none => none
  | _ => none

/-- A raw value handed to a psycopg2 type caster: SQL NULL, a bytes object
(whose UTF-8 decoding, performed by the Python runtime, either succeeds with
some string or fails), or a text value. -/
inductive DbValue
  | null
  | bytes (utf8 : Option String)
  | text (s : String)
  deriving DecidableEq, Repr

/-- Warning template for undecodable bytes in `safe_parse_date`. -/
def dateBytesLogMsg : String :=
  "Could not decode bytes to UTF-8 for date parsing"

/-- Debug template for the special values in `safe_parse_date`. -/
def dateSpecialLogMsg : String :=
  "Parsed PostgreSQL special date value as None."

/-- Warning template for an unparseable date string in `safe_parse_date`. -/
def dateParseLogMsg : String :=
  "Could not parse date string to a valid Python date. Returning None."

/-- Warning template for undecodable bytes in `safe_parse_datetime`. -/
def datetimeBytesLogMsg : String :=
  "Could not decode bytes to UTF-8 for datetime parsing"

/-- Debug template for the special values in `safe_parse_datetime`. -/
def datetimeSpecialLogMsg : String :=
  "Parsed PostgreSQL special datetime value as None."

/-- Warning template for an unparseable datetime string in
`safe_parse_datetime`. -/
def datetimeParseLogMsg : String :=
  "Could not parse datetime string to a valid Python datetime. Returning None."

/-- The string-processing tail of `PostgresTypeAdapter.safe_parse_date`
(postgres_type_adapter.py lines 32-40): the special values `infinity` and
`-infinity` produce `None` with a debug log; a failed `strptime` produces
`None` with a warning. -/
def parseDateStep (s : String) : Option PyDate × List LogEntry :=
  if s = "infinity" ∨ s = "-infinity" then
    (none, [⟨.debug, dateSpecialLogMsg⟩])
  else
    match parseDateStr s with
    | some d => (some d, [])
    | none => (none, [⟨.warning, dateParseLogMsg⟩])

/-- `PostgresTypeAdapter.safe_parse_date` (postgres_type_adapter.py lines
18-40). -/
def safe_parse_date (value : DbValue) : Option PyDate × List LogEntry :=
  match value with
  | .null => (none, [])
  | .bytes none => (none, [⟨.warning, dateBytesLogMsg⟩])
  | .bytes (some s) => parseDateStep s
  | .text s => parseDateStep s

/-- The string-processing tail of `PostgresTypeAdapter.safe_parse_datetime`
(postgres_type_adapter.py lines 56-65). -/
def parseDatetimeStep (s : String) : Option PyDateTime × List LogEntry :=
  if s = "infinity" ∨ s = "-infinity" then
    (none, [⟨.debug, datetimeSpecialLogMsg⟩])
  else
    match parseDatetimeStr s with
    | some t => (some t, [])
    | none => (none, [⟨.warning, datetimeParseLogMsg⟩])

/-- `PostgresTypeAdapter.safe_parse_datetime` (postgres_type_adapter.py
lines 42-65). -/
def safe_parse_datetime (value : DbValue) : Option PyDateTime × List LogEntry :=
  match value with
  | .null => (none, [])
  | .bytes none => (none, [⟨.warning, datetimeBytesLogMsg⟩])
  | .bytes (some s) => parseDatetimeStep s
  | .text s => parseDatetimeStep s

/-- A coerced temporal value as produced by the registered type casters. -/
inductive Temporal
  | null
  | text (s : String)
  | dateVal (d : PyDate)
  | datetimeVal (t : PyDateTime)
  deriving DecidableEq, Repr

/-- Effective type caster for the date OID 1082 after construction of
`PostgresConnector` (client.py lines 102-114): with `dates_as_string` the
STRING caster registered in `__init__` takes precedence and the original
text passes through verbatim; otherwise the safe parser registered by
`PostgresTypeAdapter.register_parsers` applies. -/
def effectiveDateCaster (datesAsString : Bool) (raw : Option String) :
    Temporal × List LogEntry :=
  match raw with
  | none => (.null, [])
  | some s =>
      if datesAsString then (.text s, [])
      else
        match safe_parse_date (.text s) with
        | (some d, lg) => (.dateVal d, lg)
        | (none, lg) => (.null, lg)

/-- Effective type caster for the timestamp OIDs 1114 and 1184 after
construction of `PostgresConnector`, analogous to `effectiveDateCaster`. -/
def effectiveDatetimeCaster (datesAsString : Bool) (raw : Option String) :
    Temporal × List LogEntry :=
  match raw with
  | none => (.null, [])
  | some s =>
      if datesAsString then (.text s, [])
      else
        match safe_parse_datetime (.text s) with
        | (some t, lg) => (.datetimeVal t, lg)
        | (none, lg) => (.null, lg)

/-- `APPLICATION_NAME = "tap_postgres"` (connection_parameters.py line 22). -/
def APPLICATION_NAME : String := "tap_postgres"

/-- The SSL-related part of the tap config consumed by
`_build_options_from_tap_config`. -/
structure SslTapConfig where
  ssl_enable : Bool
  ssl_mode : String
  ssl_certificate_authority : Option String
  ssl_client_certificate_enable : Bool
  ssl_client_certificate : String
  ssl_client_private_key : String
  deriving DecidableEq, Repr

/-- `_build_options_from_tap_config` (connection_parameters.py lines
127-165).  `resolve` stands for `_filepath_or_certificate`, whose result
depends on the filesystem: it returns either the given path or the storage
path the certificate text was materialized to. -/
def buildOptionsFromTapConfig (cfg : SslTapConfig)
    (resolve : String → String) : List (String × String) :=
  let options : List (String × String) := [("application_name", APPLICATION_NAME)]
  let options :=
    if cfg.ssl_enable then
      let options := dictInsert options "sslmode" cfg.ssl_mode
      if (cfg.ssl_mode = "verify-ca" ∨ cfg.ssl_mode = "verify-full") ∧
          cfg.ssl_certificate_authority.isSome then
        dictInsert options "sslrootcert"
          (resolve (cfg.ssl_certificate_authority.getD ""))
      else options
    else options
  if cfg.ssl_client_certificate_enable then
    let options := dictInsert options "sslcert" (resolve cfg.ssl_client_certificate)
    dictInsert options "sslkey" (resolve cfg.ssl_client_private_key)
  else options

/-- `_build_options_from_sqlalchemy_url` (connection_parameters.py lines
203-217): start from `{"application_name": APPLICATION_NAME}` and copy every
non-None query parameter of the URL over it, in order. -/
def buildOptionsFromSqlalchemyUrl (query : List (String × Option String)) :
    List (String × String) :=
  query.foldl
    (fun options kv =>
      match kv.2 with
      | some v => dictInsert options kv.1 v
      | none => options)
    [("application_name", APPLICATION_NAME)]

/-- A row of an incremental table with a tie-breaker column: the
replication-key value (an epoch-second timestamp; NULL keys do not occur in
the tie-breaker scenarios) and the tie-breaker id. -/
structure TieRow where
  key : Int
  id : Int
  deriving DecidableEq, Repr

/-- Lexicographic `(key, tie_breaker) >= (cursor_key, cursor_tie_breaker)`. -/
def tupleGe (a b : Int × Int) : Bool :=
  b.1 < a.1 || (a.1 = b.1 && b.2 ≤ a.2)

/-- Lexicographic `≤` on `(key, tie_breaker)` pairs, the tuple ordering of
the tie-breaker query. -/
def tupleRowLe (a b : TieRow) : Prop :=
  a.key < b.key ∨ (a.key = b.key ∧ a.id ≤ b.id)

instance : DecidableRel tupleRowLe := by
  intro a b
  unfold tupleRowLe
  infer_instance

instance : IsTotal TieRow tupleRowLe := by
  constructor
  intro a b
  unfold tupleRowLe
  omega

instance : IsTrans TieRow tupleRowLe := by
  constructor
  intro a b c
  unfold tupleRowLe
  omega

/-- Modelled from the spec: the tie-breaker query path of
`PostgresStream.get_records` (the smart-pagination code exercised by
`tests/test_smart_pagination.py` and `tests/test_replication_key.py`, which
is not present in `src/tap_postgres/client.py`).  Per the spec, when a
tie-breaker column is configured "the filter and ordering become tuple-based
— `(key, tie_breaker) >= (cursor_key, cursor_tie_breaker)`", so the query
returns the rows whose `(key, id)` tuple is at least the cursor tuple,
ordered by that tuple. -/
def tieBreakerGetRecords (rows : List TieRow) (cursorKey cursorId : Int) :
    List TieRow :=
  List.insertionSort tupleRowLe
    (rows.filter (fun r => tupleGe (r.key, r.id) (cursorKey, cursorId)))

/-- The persisted resume cursor of an incremental stream with a tie-breaker:
either a conservative watermark timestamp or the literal composite cursor of
a row. -/
inductive PersistedCursor
  | watermark (t : Int)
  | literal (key : Int) (id : Int)
  deriving DecidableEq, Repr

/-- Latest row under the tuple ordering. -/
def latestRow (rows : List TieRow) : Option TieRow :=
  rows.foldl
    (fun acc r =>
      match acc with
      | none => some r
      | some a => if tupleGe (r.key, r.id) (a.key, a.id) then some r else some a)
    none

/-- Modelled from the spec: the replication-key buffer policy of the
cursor/checkpoint engine (configured by `replication_key_buffer_seconds`,
exercised by `tests/test_replication_key.py`, not present in
`src/tap_postgres/client.py`).  Per the spec, the buffer "does not filter
which rows are fetched (all rows up to the present are always returned) but
changes what is persisted as the resume cursor: if the true latest row's key
is within the buffer window of now, persist `now - buffer` as a conservative
watermark instead of the row's own key"; "if the latest row's key is outside
the buffer window, persist the literal composite cursor instead". -/
def bufferPersistedCursor (now buffer : Int) (rows : List TieRow) :
    Option PersistedCursor :=
  match latestRow rows with
  | none => none
  | some r =>
      if now - buffer < r.key then some (.watermark (now - buffer))
      else some (.literal r.key r.id)

/-- Modelled from the spec: an incremental sync with the buffer policy
configured returns the same fetched rows as the tie-breaker query without a
buffer, together with the cursor chosen by the buffer policy. -/
def bufferSync (now buffer : Int) (rows : List TieRow) (cursorKey cursorId : Int) :
    List TieRow × Option PersistedCursor :=
  let fetched := tieBreakerGetRecords rows cursorKey cursorId
  (fetched, bufferPersistedCursor now buffer fetched)

theorem dictLookup_dictInsert_self {α : Type} (d : List (String × α)) (k : String) (v : α) :
    dictLookup (dictInsert d k v) k = some v := by
  unfold dictInsert dictLookup
  by_cases h : d.any (fun p => p.1 = k) = true
  · rw [if_pos h]
    induction d with
    | nil => simp at h
    | cons p rest ih =>
        by_cases hp : p.1 = k
        · simp [List.find?_cons_of_pos, hp]
        · rw [List.map_cons, if_neg hp, List.find?_cons_of_neg _ (by simpa using hp)]
          exact ih (by simpa [List.any_cons, hp] using h)
  · rw [if_neg h]
    have hnone : d.find? (fun p => p.1 = k) = none := by
      rw [List.find?_eq_none]
      intro p hp
      intro hk
      exact h (List.any_eq_true.mpr ⟨p, hp, hk⟩)
    rw [List.find?_append, hnone]
    simp [List.find?]

theorem find?_map_replace_ne {α : Type} (k q : String) (v : α) (hne : q ≠ k) :
    ∀ d : List (String × α),
      (d.map (fun p => if p.1 = q then (q, v) else p)).find? (fun p => p.1 = k) =
        d.find? (fun p => p.1 = k)
  | [] => rfl
  | p :: rest => by
      by_cases hp : p.1 = q
      · rw [List.map_cons, if_pos hp,
          List.find?_cons_of_neg _ (by simpa using hne),
          List.find?_cons_of_neg _ (by simp [hp, hne])]
        exact find?_map_replace_ne k q v hne rest
      · rw [List.map_cons, if_neg hp]
        by_cases hk : p.1 = k
        · rw [List.find?_cons_of_pos _ (by simpa using hk),
            List.find?_cons_of_pos _ (by simpa using hk)]
        · rw [List.find?_cons_of_neg _ (by simpa using hk),
            List.find?_cons_of_neg _ (by simpa using hk)]
          exact find?_map_replace_ne k q v hne rest

theorem dictLookup_dictInsert_ne {α : Type} (d : List (String × α)) (k q : String) (v : α)
    (hne : q ≠ k) : dictLookup (dictInsert d q v) k = dictLookup d k := by
  unfold dictInsert dictLookup
  by_cases h : d.any (fun p => p.1 = q) = true
  · rw [if_pos h, find?_map_replace_ne k q v hne d]
  · rw [if_neg h, List.find?_append]
    have : List.find? (fun p => p.1 = k) [(q, v)] = none := by
      simp [List.find?, hne]
    rw [this]
    simp

theorem isDigitChar_digitChar_mod (n : Nat) :
    isDigitChar (Nat.digitChar (n % 10)) = true := by
  have h : n % 10 < 10 := Nat.mod_lt _ (by norm_num)
  revert h
  generalize n % 10 = m
  intro h
  interval_cases m <;> decide

/-- The deletion timestamp written by `consume` always has the basic UTC
ISO-8601 shape. -/
theorem isBasicIso8601Utc_strftimeUtc (t : DateTimeUTC) :
    isBasicIso8601Utc (strftimeUtc t) = true := by
  have hlist : (strftimeUtc t).toList =
      [Nat.digitChar (t.year / 1000 % 10), Nat.digitChar (t.year / 100 % 10),
       Nat.digitChar (t.year / 10 % 10), Nat.digitChar (t.year % 10), '-',
       Nat.digitChar (t.month / 10 % 10), Nat.digitChar (t.month % 10), '-',
       Nat.digitChar (t.day / 10 % 10), Nat.digitChar (t.day % 10), 'T',
       Nat.digitChar (t.hour / 10 % 10), Nat.digitChar (t.hour % 10), ':',
       Nat.digitChar (t.minute / 10 % 10), Nat.digitChar (t.minute % 10), ':',
       Nat.digitChar (t.second / 10 % 10), Nat.digitChar (t.second % 10), 'Z'] := by
    simp [strftimeUtc, pad4, pad2, String.toList, String.data_append]
  rw [isBasicIso8601Utc, hlist]
  simp only []
  have hd : ∀ n : Nat, isDigitChar (Nat.digitChar (n % 10)) = true :=
    isDigitChar_digitChar_mod
  simp [hd]

theorem dictInsert_ne_nil {α : Type} (d : List (String × α)) (k : String) (v : α) :
    dictInsert d k v ≠ [] := by
  unfold dictInsert
  split
  · rename_i h
    cases d
    · simp at h
    · simp
  · simp

/-- Claim C1: `PostgresLogBasedStream.consume` raises an error exactly when
the decoded message's action discriminator is none of I, U, D, T, B, C;
upsert actions (I, U) return a row built from the `columns` array with
`_sdc_deleted_at` null and `_sdc_lsn` equal to the message's start position;
delete actions (D) return a row built from the `identity` columns with a
non-null UTC ISO-8601 `_sdc_deleted_at`; truncate (T) and transaction
boundary (B, C) actions, as well as a payload that is not valid JSON, log
and produce no record without aborting. -/
theorem claim_C1_consume (m : WalMessage) (now : DateTimeUTC) :
    (∀ raw, m.payload = .malformed raw →
        consume m now = .ok (([] : Row), [⟨.warning, malformedLogMsg⟩]) ∧
        recordOf m now = .ok none) ∧
    (∀ a cols idt, m.payload = .event a cols idt →
        ((consume m now).isOk = true ↔
            (a = "I" ∨ a = "U" ∨ a = "D" ∨ a = "T" ∨ a = "B" ∨ a = "C")) ∧
        ((a = "I" ∨ a = "U") →
            consume m now = .ok (dictInsert (dictInsert (rowFromColumns cols)
                "_sdc_deleted_at" Field.null) "_sdc_lsn" (Field.int m.data_start), []) ∧
            dictLookup (dictInsert (dictInsert (rowFromColumns cols)
                "_sdc_deleted_at" Field.null) "_sdc_lsn" (Field.int m.data_start))
              "_sdc_deleted_at" = some Field.null ∧
            dictLookup (dictInsert (dictInsert (rowFromColumns cols)
                "_sdc_deleted_at" Field.null) "_sdc_lsn" (Field.int m.data_start))
              "_sdc_lsn" = some (Field.int m.data_start)) ∧
        (a = "D" →
            consume m now = .ok (dictInsert (dictInsert (rowFromColumns idt)
                "_sdc_deleted_at" (Field.str (strftimeUtc now)))
                "_sdc_lsn" (Field.int m.data_start), []) ∧
            dictLookup (dictInsert (dictInsert (rowFromColumns idt)
                "_sdc_deleted_at" (Field.str (strftimeUtc now)))
                "_sdc_lsn" (Field.int m.data_start))
              "_sdc_deleted_at" = some (Field.str (strftimeUtc now)) ∧
            Field.str (strftimeUtc now) ≠ Field.null ∧
            isBasicIso8601Utc (strftimeUtc now) = true ∧
            dictLookup (dictInsert (dictInsert (rowFromColumns idt)
                "_sdc_deleted_at" (Field.str (strftimeUtc now)))
                "_sdc_lsn" (Field.int m.data_start))
              "_sdc_lsn" = some (Field.int m.data_start)) ∧
        ((a = "T" ∨ a = "B" ∨ a = "C") →
            recordOf m now = .ok none ∧ (consume m now).isOk = true)) := by
  obtain ⟨pl, ds⟩ := m
  constructor
  · rintro raw rfl
    exact ⟨rfl, rfl⟩
  · rintro a cols idt rfl
    refine ⟨?_, ?_, ?_, ?_⟩
    · by_cases h1 : a = "I" ∨ a = "U"
      · simp [consume, h1, Except.isOk, Except.toBool]
        tauto
      · by_cases h2 : a = "D"
        · simp [consume, h1, h2, Except.isOk, Except.toBool]
        · by_cases h3 : a = "T"
          · simp [consume, h1, h2, h3, Except.isOk, Except.toBool]
          · by_cases h4 : a = "B" ∨ a = "C"
            · simp [consume, h1, h2, h3, h4, Except.isOk, Except.toBool]
            · simp [consume, h1, h2, h3, h4, Except.isOk, Except.toBool]
    · intro h1
      refine ⟨by simp [consume, h1], ?_, ?_⟩
      · rw [dictLookup_dictInsert_ne _ _ _ _ (by decide),
          dictLookup_dictInsert_self]
      · rw [dictLookup_dictInsert_self]
    · intro h2
      have h1 : ¬ (a = "I" ∨ a = "U") := by
        rintro (rfl | rfl) <;> simp at h2
      refine ⟨by simp [consume, h1, h2], ?_, by simp, ?_, ?_⟩
      · rw [dictLookup_dictInsert_ne _ _ _ _ (by decide),
          dictLookup_dictInsert_self]
      · exact isBasicIso8601Utc_strftimeUtc now
      · rw [dictLookup_dictInsert_self]
    · intro h
      have h1 : ¬ (a = "I" ∨ a = "U") := by
        rcases h with rfl | rfl | rfl <;> rintro (h | h) <;> simp at h
      have h2 : a ≠ "D" := by
        rcases h with rfl | rfl | rfl <;> simp
      rcases h with rfl | rfl | rfl
      · exact ⟨rfl, rfl⟩
      · simp [recordOf, consume, h1, h2, Except.isOk, Except.toBool]
      · simp [recordOf, consume, h1, h2, Except.isOk, Except.toBool]

/-- Concrete instantiation of the claim-C1 theorem: a delete message builds
its row from the identity columns and timestamps the deletion. -/
theorem claim_C1_consume_witness :
    consume ⟨.event "D" [] [⟨"id", Field.int 7⟩], 42⟩ ⟨2024, 1, 2, 3, 4, 5⟩ =
      .ok (dictInsert (dictInsert (rowFromColumns [⟨"id", Field.int 7⟩])
        "_sdc_deleted_at" (Field.str (strftimeUtc ⟨2024, 1, 2, 3, 4, 5⟩)))
        "_sdc_lsn" (Field.int 42), []) :=
  (((claim_C1_consume ⟨.event "D" [] [⟨"id", Field.int 7⟩], 42⟩
      ⟨2024, 1, 2, 3, 4, 5⟩).2 "D" [] [⟨"id", Field.int 7⟩] rfl).2.2.1 rfl).1

/-- Claim C10: every record yielded by `PostgresLogBasedStream.get_records`
is a non-empty mapping containing `_sdc_lsn` (set to the message's
`data_start`) and `_sdc_deleted_at`; messages that decode to no record
(malformed payloads, truncate and transaction-boundary actions) yield
nothing, because `consume` returns an empty row for them and the yield is
guarded on row truthiness. -/
theorem claim_C10_yield_invariant (m : WalMessage) (now : DateTimeUTC)
    (rest : List LoopEvent) :
    (∀ row, recordOf m now = .ok (some row) →
        row ≠ ([] : Row) ∧
        dictLookup row "_sdc_lsn" = some (Field.int m.data_start) ∧
        dictLookup row "_sdc_deleted_at" ≠ none) ∧
    (∀ raw, m.payload = .malformed raw → recordOf m now = .ok none) ∧
    (∀ a cols idt, m.payload = .event a cols idt →
        (a = "T" ∨ a = "B" ∨ a = "C") → recordOf m now = .ok none) ∧
    (∀ row, recordOf m now = .ok (some row) →
        (runLoop now (.msg m :: rest)).1.rows = row :: (runLoop now rest).1.rows) ∧
    (recordOf m now = .ok none →
        (runLoop now (.msg m :: rest)).1.rows = (runLoop now rest).1.rows) := by
  obtain ⟨pl, ds⟩ := m
  refine ⟨?_, ?_, ?_, ?_, ?_⟩
  · intro row hrow
    cases pl with
    | malformed raw => simp [recordOf, consume] at hrow
    | event a cols idt =>
        by_cases h1 : a = "I" ∨ a = "U"
        · have hcon : consume ⟨.event a cols idt, ds⟩ now =
              .ok (dictInsert (dictInsert (rowFromColumns cols)
                "_sdc_deleted_at" Field.null) "_sdc_lsn" (Field.int ds), []) := by
            simp [consume, h1]
          simp only [recordOf, hcon] at hrow
          rw [if_neg (dictInsert_ne_nil _ _ _)] at hrow
          injection hrow with hrow
          injection hrow with hrow
          subst hrow
          refine ⟨dictInsert_ne_nil _ _ _, dictLookup_dictInsert_self _ _ _, ?_⟩
          rw [dictLookup_dictInsert_ne _ _ _ _ (by decide),
            dictLookup_dictInsert_self]
          simp
        · by_cases h2 : a = "D"
          · have hcon : consume ⟨.event a cols idt, ds⟩ now =
                .ok (dictInsert (dictInsert (rowFromColumns idt)
                  "_sdc_deleted_at" (Field.str (strftimeUtc now)))
                  "_sdc_lsn" (Field.int ds), []) := by
              simp [consume, h1, h2]
            simp only [recordOf, hcon] at hrow
            rw [if_neg (dictInsert_ne_nil _ _ _)] at hrow
            injection hrow with hrow
            injection hrow with hrow
            subst hrow
            refine ⟨dictInsert_ne_nil _ _ _, dictLookup_dictInsert_self _ _ _, ?_⟩
            rw [dictLookup_dictInsert_ne _ _ _ _ (by decide),
              dictLookup_dictInsert_self]
            simp
          · by_cases h3 : a = "T"
            · simp [recordOf, consume, h1, h2, h3] at hrow
            · by_cases h4 : a = "B" ∨ a = "C"
              · simp [recordOf, consume, h1, h2, h3, h4] at hrow
              · simp [recordOf, consume, h1, h2, h3, h4] at hrow
  · rintro raw rfl
    rfl
  · rintro a cols idt rfl h
    have h1 : ¬ (a = "I" ∨ a = "U") := by
      rcases h with rfl | rfl | rfl <;> rintro (h | h) <;> simp at h
    have h2 : a ≠ "D" := by
      rcases h with rfl | rfl | rfl <;> simp
    rcases h with rfl | rfl | rfl <;>
      simp [recordOf, consume, h1, h2]
  · intro row hrow
    cases hc : consume ⟨pl, ds⟩ now with
    | error e => simp [recordOf, hc] at hrow
    | ok pr =>
        obtain ⟨r, lg⟩ := pr
        simp only [recordOf, hc] at hrow
        by_cases hr : r = ([] : Row)
        · rw [if_pos hr] at hrow
          simp at hrow
        · rw [if_neg hr] at hrow
          injection hrow with hrow
          injection hrow with hrow
          subst hrow
          simp [runLoop, hc, hr, prependTrace]
  · intro hrow
    cases hc : consume ⟨pl, ds⟩ now with
    | error e => simp [recordOf, hc] at hrow
    | ok pr =>
        obtain ⟨r, lg⟩ := pr
        simp only [recordOf, hc] at hrow
        by_cases hr : r = ([] : Row)
        · simp [runLoop, hc, hr, prependTrace]
        · rw [if_neg hr] at hrow
          simp at hrow

/-- Concrete instantiation of the claim-C10 theorem: a transaction-begin
message yields no record. -/
theorem claim_C10_yield_invariant_witness :
    recordOf ⟨.event "B" [] [], 3⟩ ⟨2024, 1, 2, 3, 4, 5⟩ = .ok none :=
  (claim_C10_yield_invariant ⟨.event "B" [] [], 3⟩ ⟨2024, 1, 2, 3, 4, 5⟩
    []).2.2.1 "B" [] [] rfl (Or.inr (Or.inl rfl))

/-- Claim C2: in `PostgresLogBasedStream.get_records` the status interval is
fixed at 5 seconds; on an empty `read_message` the loop waits at most
`status_interval - (now - feedback_timestamp)` seconds, floored at zero;
when the wait elapses with nothing available the loop terminates and the
cursor and connection are closed; when the wait is interrupted by a signal
the loop continues instead of terminating. -/
theorem claim_C2_idle_termination (now : DateTimeUTC) (elapsed : ℚ)
    (rest : List LoopEvent) :
    statusInterval = 5 ∧
    runLoop now (.idle elapsed .empty :: rest) =
      (⟨[], [], [max 0 (statusInterval - elapsed)]⟩, .finished) ∧
    getRecordsRun now (.idle elapsed .empty :: rest) =
      (⟨[], [], [max 0 (statusInterval - elapsed)]⟩, .finished, ⟨false, false⟩) ∧
    (∀ o : SelectOutcome, (runLoop now (.idle elapsed o :: rest)).1.waits.head? =
        some (max 0 (statusInterval - elapsed))) ∧
    runLoop now (.idle elapsed .interrupted :: rest) =
      prependTrace [] [] [max 0 (statusInterval - elapsed)] (runLoop now rest) ∧
    (runLoop now (.idle elapsed .interrupted :: rest)).2 = (runLoop now rest).2 := by
  refine ⟨rfl, rfl, rfl, ?_, rfl, ?_⟩
  · intro o
    cases o <;> simp [runLoop, prependTrace]
  · simp [runLoop, prependTrace]

/-- Claim C3 (spec-modelled): with a tie-breaker column configured the query
filter and ordering are tuple-based, so the result contains exactly the rows
whose `(key, id)` tuple is at least the cursor tuple, in tuple order; in
particular, for rows sharing one key with ids 2, 3, 4, 5, resuming from
cursor `(key, 2)` returns exactly the rows with id at least 2. -/
theorem claim_C3_tuple_pagination (rows : List TieRow) (ck ci : Int) (k : Int) :
    (∀ r, r ∈ tieBreakerGetRecords rows ck ci ↔
        (r ∈ rows ∧ tupleGe (r.key, r.id) (ck, ci) = true)) ∧
    List.Sorted tupleRowLe (tieBreakerGetRecords rows ck ci) ∧
    (∀ r : TieRow, r.key = ck → ci ≤ r.id → r ∈ rows →
        r ∈ tieBreakerGetRecords rows ck ci) ∧
    tieBreakerGetRecords [⟨k, 2⟩, ⟨k, 3⟩, ⟨k, 4⟩, ⟨k, 5⟩] k 2 =
      [⟨k, 2⟩, ⟨k, 3⟩, ⟨k, 4⟩, ⟨k, 5⟩] := by
  refine ⟨?_, ?_, ?_, ?_⟩
  · intro r
    simp [tieBreakerGetRecords, List.mem_insertionSort, List.mem_filter]
  · exact List.sorted_insertionSort _ _
  · intro r hk hi hmem
    simp only [tieBreakerGetRecords, List.mem_insertionSort, List.mem_filter]
    refine ⟨hmem, ?_⟩
    simp [tupleGe, hk, hi]
  · have hfil : List.filter (fun r : TieRow => tupleGe (r.key, r.id) (k, 2))
        ([⟨k, 2⟩, ⟨k, 3⟩, ⟨k, 4⟩, ⟨k, 5⟩] : List TieRow) =
        [⟨k, 2⟩, ⟨k, 3⟩, ⟨k, 4⟩, ⟨k, 5⟩] := by
      simp [tupleGe, List.filter]
    have hsorted : List.Sorted tupleRowLe
        ([⟨k, 2⟩, ⟨k, 3⟩, ⟨k, 4⟩, ⟨k, 5⟩] : List TieRow) := by
      simp [List.sorted_cons, tupleRowLe]
    rw [tieBreakerGetRecords, hfil]
    exact List.Sorted.insertionSort_eq hsorted

/-- Concrete instantiation of the claim-C3 theorem: resuming from cursor
`(7, 2)` keeps the row with tie-breaker id 2. -/
theorem claim_C3_tuple_pagination_witness :
    (⟨7, 2⟩ : TieRow) ∈ tieBreakerGetRecords [⟨7, 2⟩, ⟨7, 3⟩, ⟨7, 4⟩, ⟨7, 5⟩] 7 2 :=
  (claim_C3_tuple_pagination [⟨7, 2⟩, ⟨7, 3⟩, ⟨7, 4⟩, ⟨7, 5⟩] 7 2 7).2.2.1
    ⟨7, 2⟩ rfl (by decide) (by decide)

/-- Claim C4 counterexample: the starting replication-key value 0 exists but
is falsy in Python, so `if start_val:` skips the filter and a row with a
NULL replication key is still emitted even though a starting value is set. -/
theorem claim_C4_counterexample :
    (some (Field.int 0) ≠ (none : Option Field)) ∧
    pyTruthy (some (Field.int 0)) = false ∧
    ([("k", Field.null)] : Row) ∈ postgresStreamGetRecords
      [[("k", Field.null)], [("k", Field.int 5)]] (some "k") (some (Field.int 0)) ∧
    keyOf [("k", Field.null)] "k" = Field.null := by
  decide

/-- Claim C4 (amended): for an incremental `PostgresStream` the rows are
ordered by the replication key with NULL keys first; the filter
`replication_key >= start_value` is applied exactly when the starting value
is truthy (non-null, non-zero, non-empty); with no truthy starting value
every row is emitted, including NULL-keyed rows, and with a truthy starting
value NULL-keyed rows are excluded. -/
theorem claim_C4_incremental_query (rows : List Row) (k : String)
    (sv : Option Field) :
    postgresStreamGetRecords rows none sv = rows ∧
    (pyTruthy sv = false →
        ∀ r, r ∈ postgresStreamGetRecords rows (some k) sv ↔ r ∈ rows) ∧
    (pyTruthy sv = true →
        ∀ r, r ∈ postgresStreamGetRecords rows (some k) sv ↔
          (r ∈ rows ∧ sqlGeB (keyOf r k) (sv.getD Field.null) = true)) ∧
    (pyTruthy sv = true →
        ∀ r, keyOf r k = Field.null →
          r ∉ postgresStreamGetRecords rows (some k) sv) ∧
    List.Sorted (rowLe k) (postgresStreamGetRecords rows (some k) sv) := by
  refine ⟨rfl, ?_, ?_, ?_, ?_⟩
  · intro hf r
    simp [postgresStreamGetRecords, hf, List.mem_insertionSort]
  · intro ht r
    simp [postgresStreamGetRecords, ht, List.mem_insertionSort, List.mem_filter]
  · intro ht r hnull hmem
    simp only [postgresStreamGetRecords, ht, if_true, List.mem_insertionSort,
      List.mem_filter] at hmem
    rw [hnull] at hmem
    simp [sqlGeB] at hmem
  · simp only [postgresStreamGetRecords]
    exact List.sorted_insertionSort _ _

/-- Concrete instantiation of the claim-C4 theorem: with a truthy start date
set, the NULL-keyed row is excluded from the results. -/
theorem claim_C4_incremental_query_witness :
    ([("k", Field.null)] : Row) ∉ postgresStreamGetRecords
      [[("k", Field.null)], [("k", Field.str "2022-11-20")]] (some "k")
      (some (Field.str "2022-11-01")) :=
  (claim_C4_incremental_query
    [[("k", Field.null)], [("k", Field.str "2022-11-20")]] "k"
    (some (Field.str "2022-11-01"))).2.2.2.1 (by decide) [("k", Field.null)]
    (by decide)

/-- Claim C5 (spec-modelled): the replication-key buffer does not change
which rows are fetched; the persisted cursor is the watermark `now - buffer`
when the latest row's key is within the buffer window of now, and the row's
literal composite cursor when it is older than the buffer window. -/
theorem claim_C5_buffer_policy (now buffer : Int) (rows : List TieRow)
    (ck ci : Int) :
    (bufferSync now buffer rows ck ci).1 = tieBreakerGetRecords rows ck ci ∧
    (∀ r, latestRow (tieBreakerGetRecords rows ck ci) = some r →
        (now - r.key < buffer →
            (bufferSync now buffer rows ck ci).2 =
              some (.watermark (now - buffer))) ∧
        (buffer < now - r.key →
            (bufferSync now buffer rows ck ci).2 =
              some (.literal r.key r.id))) := by
  refine ⟨rfl, ?_⟩
  intro r hr
  constructor
  · intro hin
    simp only [bufferSync, bufferPersistedCursor, hr]
    rw [if_pos (by omega)]
  · intro hout
    simp only [bufferSync, bufferPersistedCursor, hr]
    rw [if_neg (by omega)]

/-- Concrete instantiation of the claim-C5 theorem: a latest row 100 seconds
old with a 300-second buffer persists the watermark `now - buffer`. -/
theorem claim_C5_buffer_policy_witness :
    (bufferSync 1000 300 [⟨900, 1⟩] 0 0).2 =
      some (.watermark (1000 - 300)) :=
  ((claim_C5_buffer_policy 1000 300 [⟨900, 1⟩] 0 0).2 ⟨900, 1⟩
    (by decide)).1 (by decide)

/-- Claim C6 counterexample: the special value `infinity` does degrade to
null without raising, but the accompanying log entry is at debug level, not
the warning the claim asserts. -/
theorem claim_C6_counterexample :
    safe_parse_date (.text "infinity") = (none, [⟨.debug, dateSpecialLogMsg⟩]) ∧
    (LogLevel.debug ≠ LogLevel.warning) := by
  decide

/-- Claim C6 (amended): unrepresentable or unparseable date and timestamp
values never raise — they coerce to null with a diagnostic log entry, a
warning for unparseable values and a debug entry for the special values
`infinity` and `-infinity`; with `dates_as_string` enabled, temporal values
are preserved verbatim as their original text instead of being parsed. -/
theorem claim_C6_safe_temporal (s : String) :
    (effectiveDateCaster true (some s) = (.text s, []) ∧
     effectiveDatetimeCaster true (some s) = (.text s, [])) ∧
    ((s = "infinity" ∨ s = "-infinity") →
        safe_parse_date (.text s) = (none, [⟨.debug, dateSpecialLogMsg⟩]) ∧
        safe_parse_datetime (.text s) =
          (none, [⟨.debug, datetimeSpecialLogMsg⟩])) ∧
    (¬ (s = "infinity" ∨ s = "-infinity") → parseDateStr s = none →
        safe_parse_date (.text s) = (none, [⟨.warning, dateParseLogMsg⟩])) ∧
    (¬ (s = "infinity" ∨ s = "-infinity") → parseDatetimeStr s = none →
        safe_parse_datetime (.text s) =
          (none, [⟨.warning, datetimeParseLogMsg⟩])) ∧
    parseDateStr "4713-04-03 BC" = none ∧
    parseDateStr "10000-01-01" = none ∧
    effectiveDateCaster false (some "4713-04-03 BC") =
      (.null, [⟨.warning, dateParseLogMsg⟩]) ∧
    effectiveDateCaster true (some "4713-04-03 BC") =
      (.text "4713-04-03 BC", []) := by
  refine ⟨⟨rfl, rfl⟩, ?_, ?_, ?_, by decide, by decide, by decide, by decide⟩
  · intro h
    constructor <;>
      simp [safe_parse_date, safe_parse_datetime, parseDateStep,
        parseDatetimeStep, h]
  · intro h hp
    simp [safe_parse_date, parseDateStep, h, hp]
  · intro h hp
    simp [safe_parse_datetime, parseDatetimeStep, h, hp]

/-- Concrete instantiation of the claim-C6 theorem: the year-10000 date
degrades to null with a warning. -/
theorem claim_C6_safe_temporal_witness :
    safe_parse_date (.text "10000-01-01") =
      (none, [⟨.warning, dateParseLogMsg⟩]) :=
  (claim_C6_safe_temporal "10000-01-01").2.2.1 (by decide) (by decide)

/-- Claim C7 counterexample: for the multi-type schema
`["boolean", "integer"]`, which contains boolean but is not boolean-only,
a bytes value is still interpreted as a boolean rather than rendered as its
hex string. -/
theorem claim_C7_counterexample :
    patched_conform (.bytes [1]) ⟨["boolean", "integer"]⟩ = .bool true ∧
    (PyVal.bool true ≠ .str (bytesHex [1])) ∧
    (["boolean", "integer"] ≠ ["boolean"]) := by
  decide

/-- Claim C7 (amended): `patched_conform` interprets a bytes value as a
boolean (true exactly when it differs from the single zero byte) whenever
`is_boolean_type` holds of the declared schema — that is, whenever the type
list contains "boolean" anywhere, including multi-type schemas such as the
JSONB schema; bytes are rendered as hex strings exactly for schemas whose
type list has no "boolean". -/
theorem claim_C7_bytes_conformance (bs : List Nat) (schema : PropertySchema) :
    patched_conform (.bytes bs) schema =
      (if is_boolean_type schema then PyVal.bool (bs ≠ [0])
       else .str (bytesHex bs)) ∧
    (is_boolean_type schema = true ↔ "boolean" ∈ schema.typeList) ∧
    ("boolean" ∉ schema.typeList →
        patched_conform (.bytes bs) schema = .str (bytesHex bs)) := by
  refine ⟨rfl, ?_, ?_⟩
  · simp [is_boolean_type]
  · intro h
    simp [patched_conform, is_boolean_type, h]

/-- Concrete instantiation of the claim-C7 theorem: a bytes value with a
plain string schema renders as hex. -/
theorem claim_C7_bytes_conformance_witness :
    patched_conform (.bytes [171]) ⟨["string"]⟩ = .str (bytesHex [171]) :=
  (claim_C7_bytes_conformance [171] ⟨["string"]⟩).2.2 (by decide)

/-- Claim C8: every SQL type whose name contains "json" (and in particular
"jsonb") maps to the JSON schema whose type list is exactly string, number,
integer, array, object and boolean, through both `sdk_typing_object` and
`to_jsonschema_type`. -/
theorem claim_C8_json_mapping (das : Bool) (name : String)
    (h : containsSub (lowerStr name) "json" = true) :
    sdk_typing_object das name = jsonTypeDict ∧
    to_jsonschema_type_str das name = jsonTypeDict ∧
    jsonTypeDict.types =
      ["string", "number", "integer", "array", "object", "boolean"] := by
  have hjson : lowerStr "json" = "json" := by decide
  have hmain : sdk_typing_object das name = jsonTypeDict := by
    unfold sdk_typing_object
    simp only [sqltypeLookup, List.find?]
    by_cases hb : containsSub (lowerStr name) (lowerStr "jsonb") = true
    · rw [hb]
    · rw [Bool.not_eq_true] at hb
      rw [hb, hjson, h]
  exact ⟨hmain, hmain, rfl⟩

/-- Concrete instantiation of the claim-C8 theorem at the type name JSONB. -/
theorem claim_C8_json_mapping_witness :
    to_jsonschema_type_str false "JSONB" = jsonTypeDict :=
  (claim_C8_json_mapping false "JSONB" (by decide)).2.1

/-- Claim C9 counterexample: an `application_name` query parameter embedded
in `sqlalchemy_url` overrides the fixed tag, because the URL query is copied
over the defaults after `application_name` is seeded. -/
theorem claim_C9_counterexample :
    dictLookup (buildOptionsFromSqlalchemyUrl
      [("application_name", some "another-name")]) "application_name" =
      some "another-name" ∧
    ("another-name" ≠ APPLICATION_NAME) := by
  decide

theorem foldl_options_preserve (key : String) (v : String)
    (q : List (String × Option String)) :
    ∀ acc : List (String × String), dictLookup acc key = some v →
      (∀ kv ∈ q, kv.1 ≠ key) →
      dictLookup (q.foldl (fun options kv =>
        match kv.2 with
        | some w => dictInsert options kv.1 w
        | none => options) acc) key = some v := by
  induction q with
  | nil => intro acc hacc _; exact hacc
  | cons kv q ih =>
      intro acc hacc hq
      rw [List.foldl_cons]
      refine ih _ ?_ (fun p hp => hq p (List.mem_cons_of_mem kv hp))
      cases hv : kv.2 with
      | none => exact hacc
      | some w =>
          rw [dictLookup_dictInsert_ne _ _ _ _ (hq kv (List.mem_cons_self kv q))]
          exact hacc

/-- Claim C9 (amended): both option builders seed the options with the fixed
tag `application_name = "tap_postgres"`; the discrete-config builder never
overrides it (it only ever adds SSL keys), and the URL builder keeps the
default whenever no `application_name` query parameter is present — but an
`application_name` query parameter embedded in `sqlalchemy_url` does
override the tag. -/
theorem claim_C9_application_name (cfg : SslTapConfig)
    (resolve : String → String) (query : List (String × Option String)) :
    dictLookup (buildOptionsFromTapConfig cfg resolve) "application_name" =
      some APPLICATION_NAME ∧
    ((∀ kv ∈ query, kv.1 ≠ "application_name") →
        dictLookup (buildOptionsFromSqlalchemyUrl query) "application_name" =
          some APPLICATION_NAME) ∧
    (∀ v, dictLookup (buildOptionsFromSqlalchemyUrl
        (query ++ [("application_name", some v)])) "application_name" =
        some v) := by
  refine ⟨?_, ?_, ?_⟩
  · unfold buildOptionsFromTapConfig
    split_ifs <;>
      (repeat rw [dictLookup_dictInsert_ne _ _ _ _ (by decide)]) <;> rfl
  · intro hq
    exact foldl_options_preserve "application_name" APPLICATION_NAME query
      [("application_name", APPLICATION_NAME)] rfl hq
  · intro v
    unfold buildOptionsFromSqlalchemyUrl
    rw [List.foldl_append, List.foldl_cons, List.foldl_nil]
    exact dictLookup_dictInsert_self _ _ _

/-- Concrete instantiation of the claim-C9 theorem: a URL query without an
`application_name` parameter keeps the fixed tag. -/
theorem claim_C9_application_name_witness :
    dictLookup (buildOptionsFromSqlalchemyUrl [("sslmode", some "require")])
      "application_name" = some APPLICATION_NAME :=
  (claim_C9_application_name ⟨false, "", none, false, "", ""⟩ id
    [("sslmode", some "require")]).2.1 (by decide)

end TapPostgres
